import Mathlib

/-!
Shallow embedding of the ACME settlement service
(`src/acme/client.py`: `ACMEAPIClient` and `SettlementService`)
and proofs about the behaviour its specification describes.

The embedding models:
* Python `decimal.Decimal` values produced by parsing decimal strings,
  together with the exact-arithmetic addition/subtraction the service uses
  (`Dec`, `parseDec`, `decAdd`, `decSub`, `decToString`);
* the retrying HTTP helper `ACMEAPIClient._make_request` as a function of
  the upstream's per-attempt behaviour (`makeRequest`), including the
  failure-record accumulation, the `_request_metadata` attachment on
  success, the formatted exception messages on exhaustion, and the
  exponential-backoff sleeps (`backoffSleeps`);
* `SettlementService._get_settlement_period` over a calendar/wall-clock
  datetime model with explicit timezone offset functions;
* `SettlementService._fetch_all_transactions` and
  `SettlementService.calculate_settlement`.

Upstream I/O is modelled by environment functions giving the outcome of
each attempted HTTP GET; randomness is modelled by an arbitrary jitter
function; the `while True` pagination loop is given explicit fuel (the
source loop is unbounded; every theorem picks fuel at least the number of
pages actually served).
-/

/-! ## Decimal arithmetic (`decimal.Decimal` fragment used by the source)

`Dec` represents a Python `Decimal` with coefficient `mant` and exponent
`-exp` (so the numeric value is `mant / 10 ^ exp`); every `Decimal` the
source builds from parsing an amount string of the form
`[sign] digits [. digits]` has such a non-positive exponent, and
addition/subtraction produce the exact result at the smaller exponent,
which `decAdd`/`decSub` mirror. -/

structure Dec where
  mant : Int
  exp : Nat
deriving DecidableEq, Repr

/-- The rational value of a decimal. -/
def Dec.val (d : Dec) : ℚ := (d.mant : ℚ) / (10 : ℚ) ^ d.exp

/-- The `Decimal` corresponding to Python's `int` 0 (the start value of `sum`). -/
def decZero : Dec := ⟨0, 0⟩

/-- Exact `Decimal` addition: align to the larger number of fractional
digits (the smaller Python exponent), then add coefficients. -/
def decAdd (a b : Dec) : Dec :=
  ⟨a.mant * 10 ^ (max a.exp b.exp - a.exp) + b.mant * 10 ^ (max a.exp b.exp - b.exp),
    max a.exp b.exp⟩

/-- Exact `Decimal` subtraction, with the same exponent rule as `decAdd`. -/
def decSub (a b : Dec) : Dec :=
  ⟨a.mant * 10 ^ (max a.exp b.exp - a.exp) - b.mant * 10 ^ (max a.exp b.exp - b.exp),
    max a.exp b.exp⟩

/-- Whether every character of the list is a decimal digit. -/
def allDigits (cs : List Char) : Bool := cs.all (fun c => c.isDigit)

/-- The number denoted by a list of decimal digit characters (0 if empty). -/
def digitsVal (cs : List Char) : Nat := cs.foldl (fun a c => a * 10 + (c.toNat - 48)) 0

/-- Parse an optionally signed fixed-point decimal string, as
`Decimal(<string>)` does for inputs of the form
`[+|-] digits [. digits]` / `[+|-] . digits` / `[+|-] digits .`
(the source never feeds it the exponent, underscore, whitespace-padded or
special forms, whose parses are not needed here and are not modelled;
strings outside the grammar make `Decimal` raise `InvalidOperation`,
modelled as `none`). -/
def parseDec (s : String) : Option Dec :=
  match s.data with
  | '-' :: rest => (parseUnsigned rest).map (fun d => ⟨-d.mant, d.exp⟩)
  | '+' :: rest => parseUnsigned rest
  | cs => parseUnsigned cs
where
  parseUnsigned (cs : List Char) : Option Dec :=
    match cs.splitOn '.' with
    | [intPart] =>
        if intPart.isEmpty || !allDigits intPart then none
        else some ⟨(digitsVal intPart : Nat), 0⟩
    | [intPart, fracPart] =>
        if (intPart.isEmpty && fracPart.isEmpty) ||
            !allDigits intPart || !allDigits fracPart then none
        else some ⟨(digitsVal intPart * 10 ^ fracPart.length + digitsVal fracPart : Nat),
          fracPart.length⟩
    | _ => none

/-- Repeat a character `n` times. -/
def charRepeat (c : Char) (n : Nat) : String := String.mk (List.replicate n c)

/-- Render a decimal exactly as Python `str(Decimal(...))` renders a value
with exponent `-d.exp`: fixed-point notation while the adjusted exponent is
at least `-6`, scientific notation below that. -/
def decToString (d : Dec) : String :=
  if d.exp = 0 then sign ++ digits
  else
    if (digits.length : Int) - 1 - (d.exp : Int) ≥ -6 then
      if d.exp < digits.length then
        sign ++ (digits.take (digits.length - d.exp)) ++ "." ++
          (digits.drop (digits.length - d.exp))
      else
        sign ++ "0." ++ charRepeat '0' (d.exp - digits.length) ++ digits
    else
      if digits.length = 1 then
        sign ++ digits ++ "E" ++ toString ((digits.length : Int) - 1 - (d.exp : Int))
      else
        sign ++ digits.take 1 ++ "." ++ digits.drop 1 ++ "E" ++
          toString ((digits.length : Int) - 1 - (d.exp : Int))
where
  sign : String := if d.mant < 0 then "-" else ""
  digits : String := Nat.repr d.mant.natAbs

/-! ## Substring search (Python's `"..." in str`) -/

/-- Whether `pat` is an initial segment of `l`. -/
def leadsWith : List Char → List Char → Bool
  | [], _ => true
  | _ :: _, [] => false
  | p :: ps, c :: cs => p == c && leadsWith ps cs

/-- Whether `pat` occurs contiguously inside `l`. -/
def hasSubList (pat : List Char) : List Char → Bool
  | [] => leadsWith pat []
  | c :: cs => leadsWith pat (c :: cs) || hasSubList pat cs

/-- Python's substring test `pat in s`. -/
def strHasSub (pat s : String) : Bool := hasSubList pat.data s.data

/-! ## `ACMEAPIClient._make_request`

The upstream service's behaviour is an environment `env : Nat → HttpAttempt β`
giving the outcome of the zero-indexed `attempt`-th GET of one logical call:
either a response with a status code and (for status 200) a parsed JSON
body, a timeout, or a transport-level exception. -/

/-- The `error_type` tag recorded for a failed attempt. -/
inductive ErrorKind
  | httpError
  | timeout
  | requestException
deriving DecidableEq, Repr

/-- Python key string of an `ErrorKind` (the `error_type` dict value). -/
def ErrorKind.pyName : ErrorKind → String
  | .httpError => "http_error"
  | .timeout => "timeout"
  | .requestException => "request_exception"

/-- One failed-attempt dict: `\x7b"attempt", "status_code", "error_type"\x7d`
plus `"error_message"` for transport exceptions. -/
structure FailureRecord where
  attempt : Nat
  statusCode : Option Nat
  errorKind : ErrorKind
  errorMessage : Option String
deriving DecidableEq, Repr

/-- Outcome of one attempted GET, as seen by `_make_request`. -/
inductive HttpAttempt (β : Type)
  | response (statusCode : Nat) (body : β)
  | timeout
  | requestException (msg : String)
deriving DecidableEq, Repr

/-- Whether the attempt outcome takes one of the three failure branches
(non-200 status, timeout, transport exception). -/
def HttpAttempt.isFailure {β : Type} : HttpAttempt β → Bool
  | .response code _ => code != 200
  | .timeout => true
  | .requestException _ => true

/-- The failure dict appended for the zero-indexed attempt `i` (the source
stores `attempt + 1`); defined for failures, junk `attempt i+1/status 200`
on a success outcome (never used there). -/
def attemptRecord {β : Type} (i : Nat) : HttpAttempt β → FailureRecord
  | .response code _ => ⟨i + 1, some code, .httpError, none⟩
  | .timeout => ⟨i + 1, none, .timeout, none⟩
  | .requestException m => ⟨i + 1, none, .requestException, some m⟩

/-- Python `repr` of one failure dict, as interpolated into the exception
message f-strings. -/
def failRecordRepr (r : FailureRecord) : String :=
  "\x7b\x27attempt\x27: " ++ toString r.attempt ++ ", \x27status_code\x27: " ++
    (match r.statusCode with
     | some c => toString c
     | none => "None") ++
    ", \x27error_type\x27: \x27" ++ r.errorKind.pyName ++ "\x27" ++
    (match r.errorMessage with
     | some m => ", \x27error_message\x27: \x27" ++ m ++ "\x27"
     | none => "") ++ "\x7d"

/-- Python `repr` of the `failed_attempts` list. -/
def failListRepr (rs : List FailureRecord) : String :=
  "[" ++ String.intercalate ", " (rs.map failRecordRepr) ++ "]"

/-- The exception message raised when the final attempt fails, per the
failing outcome's branch (source lines 64-66, 78-80, 92-95). -/
def exhaustMessage {β : Type} (a : HttpAttempt β) (failed : List FailureRecord) : String :=
  match a with
  | .response code _ =>
      "API request failed with status " ++ toString code ++ ". Failed attempts: " ++
        failListRepr failed
  | .timeout =>
      "API request timed out after multiple attempts. Failed attempts: " ++
        failListRepr failed
  | .requestException m =>
      "API request failed: " ++ m ++ ". Failed attempts: " ++ failListRepr failed

/-- The `_request_metadata` dict attached to a result that succeeded after
earlier failures. -/
structure RequestMetadata where
  failedAttempts : List FailureRecord
  totalAttempts : Nat
deriving DecidableEq, Repr

/-- A successful `_make_request` result: the parsed body, with
`_request_metadata` present exactly when some earlier attempt failed. -/
structure RequestOk (β : Type) where
  body : β
  requestMetadata : Option RequestMetadata
deriving DecidableEq, Repr

/-- The retry loop of `_make_request`, recursing on the remaining fuel
`retries - attempt` (the loop body for index `attempt`, with `failed` the
accumulated failure list); the fuel-exhausted base case is the source's
final `raise` after the `for` loop (reachable only with `retries = 0`). -/
def makeRequestGo {β : Type} (env : Nat → HttpAttempt β) (retries : Nat) :
    Nat → Nat → List FailureRecord → Except String (RequestOk β)
  | 0, _, failed => .error ("All retry attempts failed. Failed attempts: " ++ failListRepr failed)
  | remaining + 1, attempt, failed =>
    match env attempt with
    | .response code body =>
        if code = 200 then
          .ok ⟨body, if failed.isEmpty then none else some ⟨failed, attempt + 1⟩⟩
        else
          if attempt = retries - 1 then
            .error (exhaustMessage (env attempt) (failed ++ [attemptRecord attempt (env attempt)]))
          else
            makeRequestGo env retries remaining (attempt + 1)
              (failed ++ [attemptRecord attempt (env attempt)])
    | .timeout =>
        if attempt = retries - 1 then
          .error (exhaustMessage (env attempt) (failed ++ [attemptRecord attempt (env attempt)]))
        else
          makeRequestGo env retries remaining (attempt + 1)
            (failed ++ [attemptRecord attempt (env attempt)])
    | .requestException _ =>
        if attempt = retries - 1 then
          .error (exhaustMessage (env attempt) (failed ++ [attemptRecord attempt (env attempt)]))
        else
          makeRequestGo env retries remaining (attempt + 1)
            (failed ++ [attemptRecord attempt (env attempt)])

/-- `ACMEAPIClient._make_request` for one logical call: run up to `retries`
attempts against `env`; return the body (with metadata) on the first
status-200 response, or the raised exception's message string after the
final failed attempt. -/
def makeRequest {β : Type} (env : Nat → HttpAttempt β) (retries : Nat) :
    Except String (RequestOk β) :=
  makeRequestGo env retries retries 0 []

/-- The source's default for the `retries` parameter. -/
def defaultRetries : Nat := 3

/-- The backoff sleeps `2 ** attempt + random.uniform(0, 1)` executed at the
bottom of the retry loop (source line 98): one sleep after each failed
attempt that is not the final one; none after a success or the exhausting
attempt. `jitter i` models the `random.uniform(0, 1)` draw of attempt `i`. -/
def backoffSleepsGo {β : Type} (env : Nat → HttpAttempt β) (jitter : Nat → ℚ) (retries : Nat) :
    Nat → Nat → List ℚ
  | 0, _ => []
  | remaining + 1, attempt =>
    match env attempt with
    | .response code _ =>
        if code = 200 then []
        else
          if attempt = retries - 1 then []
          else (2 ^ attempt + jitter attempt) :: backoffSleepsGo env jitter retries remaining (attempt + 1)
    | .timeout =>
        if attempt = retries - 1 then []
        else (2 ^ attempt + jitter attempt) :: backoffSleepsGo env jitter retries remaining (attempt + 1)
    | .requestException _ =>
        if attempt = retries - 1 then []
        else (2 ^ attempt + jitter attempt) :: backoffSleepsGo env jitter retries remaining (attempt + 1)

/-- The ordered sleeps of one `_make_request` call. -/
def backoffSleeps {β : Type} (env : Nat → HttpAttempt β) (jitter : Nat → ℚ) (retries : Nat) :
    List ℚ :=
  backoffSleepsGo env jitter retries retries 0

/-! ## Calendar dates and timezone-aware datetimes

Python `datetime` values are wall-clock fields plus an optional `tzinfo`;
`replace` and `timedelta` arithmetic act on the wall-clock fields, while
comparisons and differences of aware datetimes subtract each side's UTC
offset. The offset a `ZoneInfo` assigns to a wall-clock time (with the
default `fold=0`) is modelled as a function from wall-clock datetimes to an
offset in seconds. -/

/-- A proleptic-Gregorian calendar date. -/
structure Date where
  year : Int
  month : Nat
  day : Nat
deriving DecidableEq, Repr

/-- Gregorian leap-year test (CPython `datetime._is_leap`). -/
def isLeapYear (y : Int) : Bool := (y % 4 == 0 && y % 100 != 0) || y % 400 == 0

/-- Days in a month (CPython `datetime._days_in_month`); 0 outside 1..12. -/
def daysInMonth (y : Int) (m : Nat) : Nat :=
  match m with
  | 1 => 31
  | 2 => if isLeapYear y then 29 else 28
  | 3 => 31
  | 4 => 30
  | 5 => 31
  | 6 => 30
  | 7 => 31
  | 8 => 31
  | 9 => 30
  | 10 => 31
  | 11 => 30
  | 12 => 31
  | _ => 0

/-- Days in the year strictly before month `m`
(CPython `datetime._days_before_month`). -/
def daysBeforeMonth (y : Int) (m : Nat) : Nat :=
  (match m with
   | 1 => 0
   | 2 => 31
   | 3 => 59
   | 4 => 90
   | 5 => 120
   | 6 => 151
   | 7 => 181
   | 8 => 212
   | 9 => 243
   | 10 => 273
   | 11 => 304
   | 12 => 334
   | _ => 0) +
  (if 2 < m && isLeapYear y then 1 else 0)

/-- Days before January 1st of year `y`
(CPython `datetime._days_before_year`; `/` on `Int` is floor division here,
matching Python `//`). -/
def daysBeforeYear (y : Int) : Int :=
  (y - 1) * 365 + (y - 1) / 4 - (y - 1) / 100 + (y - 1) / 400

/-- The proleptic-Gregorian ordinal of a date (CPython `datetime._ymd2ord`,
day 1 = 0001-01-01). -/
def toOrdinal (d : Date) : Int :=
  daysBeforeYear d.year + (daysBeforeMonth d.year d.month : Int) + (d.day : Int)

/-- The calendar day before `d`: the date part of
`datetime - timedelta(days=1)`. -/
def prevDay (d : Date) : Date :=
  if 1 < d.day then ⟨d.year, d.month, d.day - 1⟩
  else if 1 < d.month then ⟨d.year, d.month - 1, daysInMonth d.year (d.month - 1)⟩
  else ⟨d.year - 1, 12, 31⟩

/-- A well-formed calendar date. -/
def Date.Valid (d : Date) : Prop :=
  1 ≤ d.month ∧ d.month ≤ 12 ∧ 1 ≤ d.day ∧ d.day ≤ daysInMonth d.year d.month

instance (d : Date) : Decidable d.Valid := by
  unfold Date.Valid
  infer_instance

/-- Naive wall-clock datetime fields. -/
structure WallDateTime where
  date : Date
  hour : Nat
  minute : Nat
  second : Nat
  microsecond : Nat
deriving DecidableEq, Repr

/-- Microseconds of the wall-clock fields since the ordinal epoch (no
offset applied). -/
def WallDateTime.toUsec (w : WallDateTime) : Int :=
  toOrdinal w.date * 86400000000 +
    (((w.hour * 3600 + w.minute * 60 + w.second) * 1000000 + w.microsecond : Nat) : Int)

/-- A timezone: the UTC offset, in seconds, that `ZoneInfo.utcoffset`
assigns to a given wall-clock time (with `fold=0`). -/
def Timezone : Type := WallDateTime → Int

/-- `ZoneInfo("UTC")`: offset 0 everywhere. -/
def utcTz : Timezone := fun _ => 0

/-- The runtime's timezone database: `ZoneInfo(name)` succeeds with a
timezone, or raises (modelled as `none`) for an unrecognized/invalid name. -/
def TzDatabase : Type := String → Option Timezone

/-- A timezone-aware datetime: wall-clock fields plus the attached
timezone. -/
structure AwareDateTime where
  wall : WallDateTime
  tz : Timezone

/-- The instant an aware datetime denotes, in microseconds: wall-clock
microseconds minus the UTC offset. -/
def AwareDateTime.instantUsec (a : AwareDateTime) : Int :=
  a.wall.toUsec - a.tz a.wall * 1000000

/-- The difference of the instants two aware datetimes denote, in
microseconds: each side's UTC offset is applied before subtracting. (This
is what `a - b` computes in CPython when the two `tzinfo` objects differ;
for two datetimes wearing the *same* `tzinfo` object — the case inside
`_get_settlement_period` — CPython short-circuits to the wall-clock
difference `naiveDiffUsec` without consulting offsets.) -/
def awareDiffUsec (a b : AwareDateTime) : Int :=
  a.instantUsec - b.instantUsec

/-- The wall-clock (naive) difference of two aware datetimes in
microseconds: what CPython's `a - b` returns when both sides carry the
same `tzinfo` object. -/
def naiveDiffUsec (a b : AwareDateTime) : Int :=
  a.wall.toUsec - b.wall.toUsec

/-- The settlement window for a resolved timezone: the wall-clock
computation of `_get_settlement_period` after timezone resolution —
`end` is the settlement date at 23:59:59.999999, `start` is the previous
day (`- timedelta(days=1)`) at 23:59:59.999999, both wearing `tz`.
Returns `(period_start, settlement_end)`. -/
def settlementPeriodWithTz (tz : Timezone) (settlementDate : WallDateTime) :
    AwareDateTime × AwareDateTime :=
  (⟨⟨prevDay settlementDate.date, 23, 59, 59, 999999⟩, tz⟩,
   ⟨⟨settlementDate.date, 23, 59, 59, 999999⟩, tz⟩)

/-- `SettlementService._get_settlement_period`: resolve the timezone name,
falling back to `ZoneInfo("UTC")` (and logging a warning, surfaced as the
`Bool`) when `ZoneInfo(timezone_str)` raises; then build the window.
Total: every input returns a period. -/
def getSettlementPeriod (db : TzDatabase) (settlementDate : WallDateTime)
    (timezoneStr : String) : (AwareDateTime × AwareDateTime) × Bool :=
  match db timezoneStr with
  | some tz => (settlementPeriodWithTz tz settlementDate, false)
  | none => (settlementPeriodWithTz utcTz settlementDate, true)

/-- Modelled from the IANA tz database (not part of the repository):
`America/New_York` restricted to wall-clock times in 2026 — UTC-4 from
2026-03-08 02:00 local to 2026-11-01 02:00 local (DST), UTC-5 otherwise.
(Within the nonexistent spring-forward hour this picks the DST offset,
which differs from `fold=0`; no theorem evaluates it there.) -/
def newYork2026 : Timezone := fun w =>
  if (WallDateTime.mk ⟨2026, 3, 8⟩ 2 0 0 0).toUsec ≤ w.toUsec ∧
      w.toUsec < (WallDateTime.mk ⟨2026, 11, 1⟩ 2 0 0 0).toUsec then
    -14400
  else
    -18000

/-- A concrete timezone database holding the two zones the theorems use. -/
def sampleTzDb : TzDatabase := fun name =>
  if name = "UTC" then some utcTz
  else if name = "America/New_York" then some newYork2026
  else none

/-! ## `SettlementService._fetch_all_transactions` and `calculate_settlement`

Upstream JSON bodies are modelled by the fields the service reads: a
transaction's `"type"` and `"amount"` keys (each possibly absent — the
source reads them with `dict.get`; other keys are opaque and never read), a
transaction page's `"results"` list (absent behaves as `[]`) and `"next"`
pointer, and a merchant's `"name"`. -/

/-- A transaction record. -/
structure Transaction where
  txnType : Option String
  amount : Option String
deriving DecidableEq, Repr

/-- One page of the paginated `/transactions/` response. -/
structure TxnPage where
  results : List Transaction
  next : Option String
deriving DecidableEq, Repr

/-- The `/merchants/\x7bid\x7d/` response body. -/
structure Merchant where
  name : Option String
deriving DecidableEq, Repr

/-- One entry of the report's `api_errors.error_details` list: either a
failed-attempt dict copied out of `_request_metadata`, or the page-level
dict `\x7b"page", "error", "details"\x7d` built when a page fetch raises. -/
inductive ApiError
  | attemptFailure (record : FailureRecord)
  | pageFailure (page : Nat) (error : String) (details : String)
deriving DecidableEq, Repr

/-- The failed-attempt diagnostics carried by a result's
`_request_metadata`, flattened into an `api_errors` fragment. -/
def metaErrors (m : Option RequestMetadata) : List ApiError :=
  match m with
  | some md => md.failedAttempts.map ApiError.attemptFailure
  | none => []

/-- Python truthiness of `response.get("next")`: `None`/absent and the
empty string are falsy. -/
def pyTruthy : Option String → Bool
  | none => false
  | some s => !s.isEmpty

/-- The `while True` pagination loop of `_fetch_all_transactions`, with
explicit fuel (the source loop is unbounded; theorems choose fuel at least
the number of pages the upstream serves). `pageEnv p` is the per-attempt
behaviour of the GET for page `p`. -/
def fetchAllGo (pageEnv : Nat → Nat → HttpAttempt TxnPage) (retries : Nat) :
    Nat → Nat → List Transaction → List ApiError → List Transaction × List ApiError
  | 0, _, acc, errs => (acc, errs)
  | fuel + 1, page, acc, errs =>
    match makeRequest (pageEnv page) retries with
    | .ok ok =>
        if pyTruthy ok.body.next then
          fetchAllGo pageEnv retries fuel (page + 1) (acc ++ ok.body.results)
            (errs ++ metaErrors ok.requestMetadata)
        else
          (acc ++ ok.body.results, errs ++ metaErrors ok.requestMetadata)
    | .error msg =>
        if strHasSub "Failed attempts:" msg then
          (acc, errs ++ [ApiError.pageFailure page "Failed to fetch page" msg])
        else
          (acc, errs ++ [ApiError.pageFailure page "Unknown error" msg])

/-- `SettlementService._fetch_all_transactions`: page from 1 upward,
accumulating results and attempt-level diagnostics; on a raised page fetch,
record a page-level error and stop, keeping what was accumulated. -/
def fetchAllTransactions (pageEnv : Nat → Nat → HttpAttempt TxnPage)
    (retries fuel : Nat) : List Transaction × List ApiError :=
  fetchAllGo pageEnv retries fuel 1 [] []

/-- `transaction.get("amount", "0")`. -/
def txnAmount (t : Transaction) : String := t.amount.getD "0"

/-- `transaction.get("type") in ("SALE", "PURCHASE")`. -/
def isPurchaseType (t : Option String) : Bool := t == some "SALE" || t == some "PURCHASE"

/-- `transaction.get("type") == "REFUND"`. -/
def isRefundType (t : Option String) : Bool := t == some "REFUND"

/-- `sum([Decimal(str(transaction.get("amount", "0"))) for transaction in
transactions if <p on type>])`: exact decimal sum (starting from the `int` 0)
of the amounts of the transactions selected by `p`; a malformed amount
string makes `Decimal` raise, modelled as `.error` carrying the offending
string. -/
def sumAmounts (p : Option String → Bool) (txns : List Transaction) : Except String Dec :=
  (txns.filter fun t => p t.txnType).foldlM
    (fun acc t =>
      match parseDec (txnAmount t) with
      | some d => Except.ok (decAdd acc d)
      | none => Except.error (txnAmount t))
    decZero

/-- How `calculate_settlement` can raise: `ValueError("Merchant ... not
found or API error")` when the merchant lookup raises, or the
`decimal.InvalidOperation` propagated from a malformed amount string
(identified by the offending amount). -/
inductive CalcError
  | merchantNotFound (merchantId : String)
  | invalidDecimal (amount : String)
deriving DecidableEq, Repr

/-- The report's optional `api_errors` block. -/
structure ApiErrorsBlock where
  totalErrors : Nat
  errorDetails : List ApiError
deriving DecidableEq, Repr

/-- The settlement report dict (summary fields inlined; the monetary fields
hold the `str(...)` renderings the source stores; `settlement_date`,
`settlement_period` keep the underlying values whose `isoformat()` the
source serializes). -/
structure SettlementReport where
  merchantId : String
  merchantName : Option String
  settlementDate : Date
  periodStart : AwareDateTime
  periodEnd : AwareDateTime
  settlementAmount : String
  totalPurchases : String
  totalRefunds : String
  transactionCount : Nat
  netSettlement : String
  transactions : List Transaction
  apiErrors : Option ApiErrorsBlock

/-- `SettlementService.calculate_settlement`. Steps, as in the source:
validate the merchant via `_make_request` (a raise there is converted to
`ValueError`, aborting before any transaction fetch — the diagnostics
appended in that handler die with the exception and are unobservable);
derive the period; fetch all transactions; reduce with exact decimal sums;
assemble the report, attaching `api_errors` only when diagnostics exist. -/
def calculateSettlement (merchantEnv : Nat → HttpAttempt Merchant)
    (pageEnv : Nat → Nat → HttpAttempt TxnPage) (db : TzDatabase)
    (merchantId : String) (settlementDate : WallDateTime) (timezoneStr : String)
    (retries fuel : Nat) : Except CalcError SettlementReport :=
  match makeRequest merchantEnv retries with
  | .error _ => .error (.merchantNotFound merchantId)
  | .ok merchant =>
    let period := (getSettlementPeriod db settlementDate timezoneStr).1
    let fetched := fetchAllTransactions pageEnv retries fuel
    let apiErrors := metaErrors merchant.requestMetadata ++ fetched.2
    match sumAmounts isPurchaseType fetched.1 with
    | .error a => .error (.invalidDecimal a)
    | .ok purchaseTotal =>
      match sumAmounts isRefundType fetched.1 with
      | .error a => .error (.invalidDecimal a)
      | .ok refundTotal =>
        .ok
          { merchantId := merchantId
            merchantName := merchant.body.name
            settlementDate := settlementDate.date
            periodStart := period.1
            periodEnd := period.2
            settlementAmount := decToString (decSub purchaseTotal refundTotal)
            totalPurchases := decToString purchaseTotal
            totalRefunds := decToString refundTotal
            transactionCount := fetched.1.length
            netSettlement := decToString (decSub purchaseTotal refundTotal)
            transactions := fetched.1
            apiErrors :=
              if apiErrors.isEmpty then none
              else some ⟨apiErrors.length, apiErrors⟩ }

/-! ## Helper lemmas -/

theorem leadsWith_append_self (pat rest : List Char) : leadsWith pat (pat ++ rest) = true := by
  induction pat with
  | nil => rfl
  | cons p ps ih => simp [leadsWith, ih]

theorem leadsWith_mono (pat l l' : List Char) (h : leadsWith pat l = true) :
    leadsWith pat (l ++ l') = true := by
  induction pat generalizing l with
  | nil => rfl
  | cons p ps ih =>
    cases l with
    | nil => simp [leadsWith] at h
    | cons c cs =>
      simp [leadsWith] at h ⊢
      exact ⟨h.1, ih cs h.2⟩

theorem hasSubList_append_left (pat l l' : List Char) (h : hasSubList pat l' = true) :
    hasSubList pat (l ++ l') = true := by
  induction l with
  | nil => simpa using h
  | cons c cs ih =>
    simp only [List.cons_append, hasSubList, Bool.or_eq_true]
    exact Or.inr ih

theorem hasSubList_append_right2 (pat l l' : List Char) (h : hasSubList pat l = true) :
    hasSubList pat (l ++ l') = true := by
  induction l with
  | nil =>
    cases pat with
    | nil =>
      cases l' with
      | nil => rfl
      | cons c cs => simp [hasSubList, leadsWith]
    | cons p ps => simp [hasSubList, leadsWith] at h
  | cons c cs ih =>
    simp only [hasSubList, Bool.or_eq_true] at h
    simp only [List.cons_append, hasSubList, Bool.or_eq_true]
    cases h with
    | inl h => exact Or.inl (leadsWith_mono _ _ _ h)
    | inr h => exact Or.inr (ih h)

theorem strHasSub_of_decomp (pat p mid r : String) (hmid : hasSubList pat.data mid.data = true) :
    strHasSub pat (p ++ (mid ++ r)) = true := by
  unfold strHasSub
  simp only [String.data_append]
  exact hasSubList_append_left _ _ _ (hasSubList_append_right2 _ _ _ hmid)

theorem append_mid_split (x d r f g : String) (hd : d = f ++ g) :
    (x ++ d) ++ r = (x ++ f) ++ (g ++ r) := by
  rw [hd, ← String.append_assoc, String.append_assoc]

theorem makeRequestGo_error_shape {β : Type} (env : Nat → HttpAttempt β) (retries : Nat) :
    ∀ fuel attempt failed msg, makeRequestGo env retries fuel attempt failed = .error msg →
    ∃ p records, msg = p ++ ("Failed attempts: " ++ failListRepr records) := by
  intro fuel
  induction fuel with
  | zero =>
    intro attempt failed msg h
    simp only [makeRequestGo, Except.error.injEq] at h
    refine ⟨"All retry attempts failed. ", failed, ?_⟩
    rw [← h,
      show ("All retry attempts failed. Failed attempts: " : String) =
        "All retry attempts failed. " ++ "Failed attempts: " from by decide,
      String.append_assoc]
  | succ n ih =>
    intro attempt failed msg h
    cases henv : env attempt with
    | response code body =>
      rw [makeRequestGo, henv] at h
      by_cases hc : code = 200
      · simp [hc] at h
      · simp only [if_neg hc] at h
        by_cases hl : attempt = retries - 1
        · simp only [if_pos hl, Except.error.injEq] at h
          refine ⟨("API request failed with status " ++ toString code) ++ ". ",
            failed ++ [attemptRecord attempt (HttpAttempt.response code body)], ?_⟩
          rw [← h]
          simp only [exhaustMessage]
          exact append_mid_split ("API request failed with status " ++ toString code)
            ". Failed attempts: " _ ". " "Failed attempts: " (by decide)
        · simp only [if_neg hl] at h
          exact ih _ _ _ h
    | timeout =>
      rw [makeRequestGo, henv] at h
      by_cases hl : attempt = retries - 1
      · simp only [if_pos hl, Except.error.injEq] at h
        refine ⟨"API request timed out after multiple attempts. ",
          failed ++ [attemptRecord attempt (HttpAttempt.timeout : HttpAttempt β)], ?_⟩
        rw [← h]
        simp only [exhaustMessage]
        rw [show ("API request timed out after multiple attempts. Failed attempts: " : String) =
          "API request timed out after multiple attempts. " ++ "Failed attempts: " from by decide,
          String.append_assoc]
      · simp only [if_neg hl] at h
        exact ih _ _ _ h
    | requestException m =>
      rw [makeRequestGo, henv] at h
      by_cases hl : attempt = retries - 1
      · simp only [if_pos hl, Except.error.injEq] at h
        refine ⟨("API request failed: " ++ m) ++ ". ",
          failed ++ [attemptRecord attempt (HttpAttempt.requestException m : HttpAttempt β)], ?_⟩
        rw [← h]
        simp only [exhaustMessage]
        exact append_mid_split ("API request failed: " ++ m)
          ". Failed attempts: " _ ". " "Failed attempts: " (by decide)
      · simp only [if_neg hl] at h
        exact ih _ _ _ h

theorem makeRequest_error_hasSub {β : Type} (env : Nat → HttpAttempt β) (retries : Nat)
    (msg : String) (h : makeRequest env retries = .error msg) :
    strHasSub "Failed attempts:" msg = true := by
  obtain ⟨p, records, hmsg⟩ := makeRequestGo_error_shape env retries retries 0 [] msg h
  rw [hmsg]
  exact strHasSub_of_decomp _ _ _ _ (by decide)

theorem makeRequestGo_step_failure {β : Type} (env : Nat → HttpAttempt β) (retries f attempt : Nat)
    (failed : List FailureRecord) (hfail : (env attempt).isFailure = true) :
    makeRequestGo env retries (f + 1) attempt failed =
      if attempt = retries - 1 then
        .error (exhaustMessage (env attempt) (failed ++ [attemptRecord attempt (env attempt)]))
      else
        makeRequestGo env retries f (attempt + 1) (failed ++ [attemptRecord attempt (env attempt)]) := by
  cases henv : env attempt with
  | response code body =>
    have hc : ¬ code = 200 := by
      rw [henv, HttpAttempt.isFailure] at hfail
      simpa using hfail
    simp only [makeRequestGo, henv]
    rw [if_neg hc]
  | timeout => simp only [makeRequestGo, henv]
  | requestException m => simp only [makeRequestGo, henv]

theorem makeRequestGo_step_success {β : Type} (env : Nat → HttpAttempt β) (retries f attempt : Nat)
    (failed : List FailureRecord) (body : β) (hsucc : env attempt = .response 200 body) :
    makeRequestGo env retries (f + 1) attempt failed =
      .ok ⟨body, if failed.isEmpty then none else some ⟨failed, attempt + 1⟩⟩ := by
  simp [makeRequestGo, hsucc]

theorem backoffSleepsGo_step_failure {β : Type} (env : Nat → HttpAttempt β) (jitter : Nat → ℚ)
    (retries f attempt : Nat) (hfail : (env attempt).isFailure = true) :
    backoffSleepsGo env jitter retries (f + 1) attempt =
      if attempt = retries - 1 then []
      else (2 ^ attempt + jitter attempt) :: backoffSleepsGo env jitter retries f (attempt + 1) := by
  cases henv : env attempt with
  | response code body =>
    have hc : ¬ code = 200 := by
      rw [henv, HttpAttempt.isFailure] at hfail
      simpa using hfail
    simp only [backoffSleepsGo, henv]
    rw [if_neg hc]
  | timeout => simp only [backoffSleepsGo, henv]
  | requestException m => simp only [backoffSleepsGo, henv]

theorem backoffSleepsGo_step_success {β : Type} (env : Nat → HttpAttempt β) (jitter : Nat → ℚ)
    (retries f attempt : Nat) (body : β) (hsucc : env attempt = .response 200 body) :
    backoffSleepsGo env jitter retries (f + 1) attempt = [] := by
  simp [backoffSleepsGo, hsucc]

theorem range_map_shift {α : Type} (g : Nat → α) (k a : Nat) :
    (List.range (k + 1)).map (fun i => g (a + i)) =
      g a :: (List.range k).map (fun i => g (a + 1 + i)) := by
  rw [List.range_succ_eq_map, List.map_cons, List.map_map]
  refine congrArg₂ List.cons (by rw [Nat.add_zero]) ?_
  apply List.map_congr_left
  intro i _
  show g (a + (i + 1)) = g (a + 1 + i)
  rw [show a + (i + 1) = a + 1 + i from by omega]

theorem makeRequestGo_success_run {β : Type} (env : Nat → HttpAttempt β) (retries : Nat) (body : β) :
    ∀ k attempt failed,
    attempt + k < retries →
    (∀ i, i < k → (env (attempt + i)).isFailure = true) →
    env (attempt + k) = .response 200 body →
    makeRequestGo env retries (retries - attempt) attempt failed =
      .ok ⟨body,
        if (failed ++ (List.range k).map (fun i => attemptRecord (attempt + i) (env (attempt + i)))).isEmpty
        then none
        else some ⟨failed ++ (List.range k).map (fun i => attemptRecord (attempt + i) (env (attempt + i))),
          attempt + k + 1⟩⟩ := by
  intro k
  induction k with
  | zero =>
    intro attempt failed hlt _ hsucc
    rw [Nat.add_zero] at hlt hsucc
    obtain ⟨f, hf⟩ : ∃ f, retries - attempt = f + 1 := ⟨retries - attempt - 1, by omega⟩
    rw [hf, makeRequestGo_step_success env retries f attempt failed body hsucc]
    simp
  | succ k ih =>
    intro attempt failed hlt hfail hsucc
    obtain ⟨f, hf⟩ : ∃ f, retries - attempt = f + 1 := ⟨retries - attempt - 1, by omega⟩
    have hfa : (env attempt).isFailure = true := by
      have := hfail 0 (by omega)
      rwa [Nat.add_zero] at this
    rw [hf, makeRequestGo_step_failure env retries f attempt failed hfa,
      if_neg (by omega : ¬ attempt = retries - 1)]
    have hfeq : f = retries - (attempt + 1) := by omega
    rw [hfeq, ih (attempt + 1) (failed ++ [attemptRecord attempt (env attempt)])
      (by omega)
      (fun i hi => by
        have := hfail (i + 1) (by omega)
        rwa [show attempt + (i + 1) = attempt + 1 + i from by omega] at this)
      (by rwa [show attempt + 1 + k = attempt + (k + 1) from by omega])]
    rw [range_map_shift (fun j => attemptRecord j (env j)) k attempt]
    simp only [List.append_assoc, List.singleton_append]
    rw [show attempt + 1 + k + 1 = attempt + (k + 1) + 1 from by omega]

theorem makeRequestGo_exhaust_run {β : Type} (env : Nat → HttpAttempt β) (retries : Nat) :
    ∀ k attempt failed,
    attempt + k + 1 = retries →
    (∀ i, i ≤ k → (env (attempt + i)).isFailure = true) →
    makeRequestGo env retries (retries - attempt) attempt failed =
      .error (exhaustMessage (env (retries - 1))
        (failed ++ (List.range (k + 1)).map (fun i => attemptRecord (attempt + i) (env (attempt + i))))) := by
  intro k
  induction k with
  | zero =>
    intro attempt failed heq hfail
    have hfa : (env attempt).isFailure = true := by
      have := hfail 0 (by omega)
      rwa [Nat.add_zero] at this
    have hf1 : retries - attempt = 0 + 1 := by omega
    rw [hf1, makeRequestGo_step_failure env retries 0 attempt failed hfa,
      if_pos (by omega : attempt = retries - 1)]
    have : retries - 1 = attempt := by omega
    rw [this]
    simp [range_map_shift (fun j => attemptRecord j (env j)) 0 attempt]
  | succ k ih =>
    intro attempt failed heq hfail
    obtain ⟨f, hf⟩ : ∃ f, retries - attempt = f + 1 := ⟨retries - attempt - 1, by omega⟩
    have hfa : (env attempt).isFailure = true := by
      have := hfail 0 (by omega)
      rwa [Nat.add_zero] at this
    rw [hf, makeRequestGo_step_failure env retries f attempt failed hfa,
      if_neg (by omega : ¬ attempt = retries - 1)]
    have hfeq : f = retries - (attempt + 1) := by omega
    rw [hfeq, ih (attempt + 1) (failed ++ [attemptRecord attempt (env attempt)])
      (by omega)
      (fun i hi => by
        have := hfail (i + 1) (by omega)
        rwa [show attempt + (i + 1) = attempt + 1 + i from by omega] at this)]
    rw [range_map_shift (fun j => attemptRecord j (env j)) (k + 1) attempt]
    simp only [List.append_assoc, List.singleton_append]

theorem backoffSleepsGo_success_run {β : Type} (env : Nat → HttpAttempt β) (jitter : Nat → ℚ)
    (retries : Nat) (body : β) :
    ∀ k attempt,
    attempt + k < retries →
    (∀ i, i < k → (env (attempt + i)).isFailure = true) →
    env (attempt + k) = .response 200 body →
    backoffSleepsGo env jitter retries (retries - attempt) attempt =
      (List.range k).map (fun i => 2 ^ (attempt + i) + jitter (attempt + i)) := by
  intro k
  induction k with
  | zero =>
    intro attempt hlt _ hsucc
    rw [Nat.add_zero] at hlt hsucc
    obtain ⟨f, hf⟩ : ∃ f, retries - attempt = f + 1 := ⟨retries - attempt - 1, by omega⟩
    rw [hf, backoffSleepsGo_step_success env jitter retries f attempt body hsucc]
    simp
  | succ k ih =>
    intro attempt hlt hfail hsucc
    obtain ⟨f, hf⟩ : ∃ f, retries - attempt = f + 1 := ⟨retries - attempt - 1, by omega⟩
    have hfa : (env attempt).isFailure = true := by
      have := hfail 0 (by omega)
      rwa [Nat.add_zero] at this
    rw [hf, backoffSleepsGo_step_failure env jitter retries f attempt hfa,
      if_neg (by omega : ¬ attempt = retries - 1)]
    have hfeq : f = retries - (attempt + 1) := by omega
    rw [hfeq, ih (attempt + 1)
      (by omega)
      (fun i hi => by
        have := hfail (i + 1) (by omega)
        rwa [show attempt + (i + 1) = attempt + 1 + i from by omega] at this)
      (by rwa [show attempt + 1 + k = attempt + (k + 1) from by omega])]
    rw [range_map_shift (fun j => 2 ^ j + jitter j) k attempt]

theorem backoffSleepsGo_exhaust_run {β : Type} (env : Nat → HttpAttempt β) (jitter : Nat → ℚ)
    (retries : Nat) :
    ∀ k attempt,
    attempt + k + 1 = retries →
    (∀ i, i ≤ k → (env (attempt + i)).isFailure = true) →
    backoffSleepsGo env jitter retries (retries - attempt) attempt =
      (List.range k).map (fun i => 2 ^ (attempt + i) + jitter (attempt + i)) := by
  intro k
  induction k with
  | zero =>
    intro attempt heq hfail
    have hfa : (env attempt).isFailure = true := by
      have := hfail 0 (by omega)
      rwa [Nat.add_zero] at this
    have hf1 : retries - attempt = 0 + 1 := by omega
    rw [hf1, backoffSleepsGo_step_failure env jitter retries 0 attempt hfa,
      if_pos (by omega : attempt = retries - 1)]
    simp
  | succ k ih =>
    intro attempt heq hfail
    obtain ⟨f, hf⟩ : ∃ f, retries - attempt = f + 1 := ⟨retries - attempt - 1, by omega⟩
    have hfa : (env attempt).isFailure = true := by
      have := hfail 0 (by omega)
      rwa [Nat.add_zero] at this
    rw [hf, backoffSleepsGo_step_failure env jitter retries f attempt hfa,
      if_neg (by omega : ¬ attempt = retries - 1)]
    have hfeq : f = retries - (attempt + 1) := by omega
    rw [hfeq, ih (attempt + 1)
      (by omega)
      (fun i hi => by
        have := hfail (i + 1) (by omega)
        rwa [show attempt + (i + 1) = attempt + 1 + i from by omega] at this)]
    rw [range_map_shift (fun j => 2 ^ j + jitter j) k attempt]

theorem range_flatMap_shift {α : Type} (g : Nat → List α) (k a : Nat) :
    (List.range (k + 1)).flatMap (fun i => g (a + i)) =
      g a ++ (List.range k).flatMap (fun i => g (a + 1 + i)) := by
  rw [List.range_succ_eq_map, List.flatMap_cons, List.flatMap_map]
  refine congrArg₂ List.append (by rw [Nat.add_zero]) ?_
  apply List.flatMap_congr
  intro i _
  show g (a + (i + 1)) = g (a + 1 + i)
  rw [show a + (i + 1) = a + 1 + i from by omega]

theorem fetchAllGo_run (pageEnv : Nat → Nat → HttpAttempt TxnPage) (retries : Nat)
    (pageOk : Nat → RequestOk TxnPage) (msg : String) :
    ∀ count page acc errs fuel,
    count < fuel →
    (∀ i, i < count → makeRequest (pageEnv (page + i)) retries = .ok (pageOk (page + i)) ∧
        pyTruthy (pageOk (page + i)).body.next = true) →
    makeRequest (pageEnv (page + count)) retries = .error msg →
    fetchAllGo pageEnv retries fuel page acc errs =
      (acc ++ (List.range count).flatMap (fun i => (pageOk (page + i)).body.results),
       errs ++ (List.range count).flatMap (fun i => metaErrors (pageOk (page + i)).requestMetadata)
         ++ [ApiError.pageFailure (page + count) "Failed to fetch page" msg]) := by
  intro count
  induction count with
  | zero =>
    intro page acc errs fuel hlt h hend
    rw [Nat.add_zero] at hend
    obtain ⟨f, hf⟩ : ∃ f, fuel = f + 1 := ⟨fuel - 1, by omega⟩
    subst hf
    simp only [fetchAllGo, hend, makeRequest_error_hasSub _ _ _ hend, if_true]
    simp
  | succ count ih =>
    intro page acc errs fuel hlt h hend
    obtain ⟨f, hf⟩ : ∃ f, fuel = f + 1 := ⟨fuel - 1, by omega⟩
    subst hf
    obtain ⟨hok, hnext⟩ := by
      have := h 0 (by omega)
      rwa [Nat.add_zero] at this
    simp only [fetchAllGo, hok, hnext, if_true]
    rw [ih (page + 1) (acc ++ (pageOk page).body.results)
      (errs ++ metaErrors (pageOk page).requestMetadata) f (by omega)
      (fun i hi => by
        have := h (i + 1) (by omega)
        rwa [show page + (i + 1) = page + 1 + i from by omega] at this)
      (by rwa [show page + 1 + count = page + (count + 1) from by omega])]
    rw [range_flatMap_shift (fun j => (pageOk j).body.results) count page,
      range_flatMap_shift (fun j => metaErrors (pageOk j).requestMetadata) count page]
    simp only [List.append_assoc]
    rw [show page + 1 + count = page + (count + 1) from by omega]

theorem sumAmounts_append_excluded (p : Option String → Bool) (txns : List Transaction)
    (t : Transaction) (hp : p t.txnType = false) :
    sumAmounts p (txns ++ [t]) = sumAmounts p txns := by
  unfold sumAmounts
  rw [List.filter_append, List.filter_singleton]
  simp [hp]

theorem sumAmounts_append_included (p : Option String → Bool) (txns : List Transaction)
    (t : Transaction) (P d : Dec) (hp : p t.txnType = true)
    (hsum : sumAmounts p txns = .ok P) (hparse : parseDec (txnAmount t) = some d) :
    sumAmounts p (txns ++ [t]) = .ok (decAdd P d) := by
  unfold sumAmounts at hsum ⊢
  rw [List.filter_append, List.filter_singleton]
  simp only [hp, cond_true]
  rw [List.foldlM_append, hsum]
  simp only [List.foldlM, hparse]
  rfl

theorem decAdd_decZero (P : Dec) : decAdd P decZero = P := by
  unfold decAdd decZero
  simp

theorem toOrdinal_prevDay (d : Date) (h : d.Valid) : toOrdinal (prevDay d) = toOrdinal d - 1 := by
  obtain ⟨h1, h2, h3, h4⟩ := h
  unfold prevDay
  by_cases hd : 1 < d.day
  · rw [if_pos hd]
    unfold toOrdinal
    simp only
    omega
  · rw [if_neg hd]
    have hday : d.day = 1 := by omega
    by_cases hm : 1 < d.month
    · rw [if_pos hm]
      unfold toOrdinal daysBeforeMonth daysInMonth
      simp only
      interval_cases hmv : d.month <;>
        · simp only
          cases hiL : isLeapYear d.year <;> simp_all <;> omega
    · rw [if_neg hm]
      have hmon : d.month = 1 := by omega
      have key : daysBeforeYear d.year - daysBeforeYear (d.year - 1) =
          365 + (if isLeapYear (d.year - 1) then (1 : Int) else 0) := by
        unfold daysBeforeYear isLeapYear
        split
        · rename_i hL
          simp only [Bool.or_eq_true, Bool.and_eq_true, beq_iff_eq, bne_iff_ne, ne_eq] at hL
          omega
        · rename_i hL
          simp only [Bool.or_eq_true, Bool.and_eq_true, beq_iff_eq, bne_iff_ne, ne_eq] at hL
          push_neg at hL
          omega
      unfold toOrdinal daysBeforeMonth
      rw [hmon, hday]
      have h12 : ∀ b : Bool, (decide ((2 : Nat) < 12) && b) = b := by decide
      have h1 : ∀ b : Bool, (decide ((2 : Nat) < 1) && b) = false := by decide
      simp only [h12, h1]
      cases hiL : isLeapYear (d.year - 1) with
      | false =>
        rw [hiL] at key
        norm_num at key ⊢
        omega
      | true =>
        rw [hiL] at key
        norm_num at key ⊢
        omega

theorem settlementPeriod_wall (tz : Timezone) (sd : WallDateTime) :
    (settlementPeriodWithTz tz sd).2.wall = ⟨sd.date, 23, 59, 59, 999999⟩ ∧
    (settlementPeriodWithTz tz sd).1.wall = ⟨prevDay sd.date, 23, 59, 59, 999999⟩ :=
  ⟨rfl, rfl⟩

theorem settlementPeriod_diff (tz : Timezone) (sd : WallDateTime) (h : sd.date.Valid) :
    naiveDiffUsec (settlementPeriodWithTz tz sd).2 (settlementPeriodWithTz tz sd).1 = 86400000000 ∧
    awareDiffUsec (settlementPeriodWithTz tz sd).2 (settlementPeriodWithTz tz sd).1 =
      86400000000 -
        (tz (settlementPeriodWithTz tz sd).2.wall - tz (settlementPeriodWithTz tz sd).1.wall) *
          1000000 := by
  have hord := toOrdinal_prevDay sd.date h
  unfold settlementPeriodWithTz naiveDiffUsec awareDiffUsec AwareDateTime.instantUsec
    WallDateTime.toUsec
  simp only
  constructor
  · omega
  · omega

theorem calculateSettlement_ok_eq (menv : Nat → HttpAttempt Merchant)
    (pageEnv : Nat → Nat → HttpAttempt TxnPage) (db : TzDatabase) (id : String)
    (sd : WallDateTime) (tzStr : String) (retries fuel : Nat) (mOk : RequestOk Merchant)
    (P R : Dec)
    (hm : makeRequest menv retries = .ok mOk)
    (hP : sumAmounts isPurchaseType (fetchAllTransactions pageEnv retries fuel).1 = .ok P)
    (hR : sumAmounts isRefundType (fetchAllTransactions pageEnv retries fuel).1 = .ok R) :
    calculateSettlement menv pageEnv db id sd tzStr retries fuel = .ok
      { merchantId := id
        merchantName := mOk.body.name
        settlementDate := sd.date
        periodStart := (getSettlementPeriod db sd tzStr).1.1
        periodEnd := (getSettlementPeriod db sd tzStr).1.2
        settlementAmount := decToString (decSub P R)
        totalPurchases := decToString P
        totalRefunds := decToString R
        transactionCount := (fetchAllTransactions pageEnv retries fuel).1.length
        netSettlement := decToString (decSub P R)
        transactions := (fetchAllTransactions pageEnv retries fuel).1
        apiErrors :=
          if (metaErrors mOk.requestMetadata ++ (fetchAllTransactions pageEnv retries fuel).2).isEmpty
          then none
          else some ⟨(metaErrors mOk.requestMetadata ++ (fetchAllTransactions pageEnv retries fuel).2).length,
            metaErrors mOk.requestMetadata ++ (fetchAllTransactions pageEnv retries fuel).2⟩ } := by
  unfold calculateSettlement
  simp only [hm, hP, hR]

theorem fetchAll_onePage (txns : List Transaction) (fuel : Nat) :
    fetchAllTransactions (fun _ _ => .response 200 ⟨txns, none⟩) 3 (fuel + 1) = (txns, []) := by
  unfold fetchAllTransactions
  rw [fetchAllGo]
  simp only [show makeRequest (fun _ => HttpAttempt.response 200 (TxnPage.mk txns none)) 3 =
    .ok ⟨⟨txns, none⟩, none⟩ from rfl]
  simp [pyTruthy, metaErrors]

deriving instance DecidableEq for Except

/-! ## Concrete fixtures used by witnesses and counterexamples -/

/-- A merchant lookup that succeeds on the first attempt. -/
def merchantOkEnv : Nat → HttpAttempt Merchant := fun _ => .response 200 ⟨some "Acme Cafe"⟩

/-- A merchant lookup whose attempts all return HTTP 500. -/
def merchantFailEnv : Nat → HttpAttempt Merchant := fun _ => .response 500 ⟨none⟩

/-- A merchant lookup failing twice (HTTP 500, then a timeout) and
succeeding on the third attempt. -/
def merchantFlakyEnv : Nat → HttpAttempt Merchant := fun a =>
  if a = 0 then .response 500 ⟨none⟩
  else if a = 1 then .timeout
  else .response 200 ⟨some "Acme"⟩

/-- A transactions upstream serving a single page (no `next` pointer). -/
def onePageEnv (txns : List Transaction) : Nat → Nat → HttpAttempt TxnPage :=
  fun _ _ => .response 200 ⟨txns, none⟩

/-- A transactions upstream whose every page GET returns HTTP 500. -/
def alwaysFail500Pages : Nat → Nat → HttpAttempt TxnPage := fun _ _ => .response 500 ⟨[], none⟩

/-- Page 1 succeeds with two transactions and a `next` pointer; every later
page returns HTTP 500 on all attempts. -/
def pagesFailAt2Env : Nat → Nat → HttpAttempt TxnPage := fun p _ =>
  if p = 1 then .response 200 ⟨[⟨some "SALE", some "5.00"⟩, ⟨some "REFUND", some "1.00"⟩], some "page2"⟩
  else .response 500 ⟨[], none⟩

/-- The settlement date used by concrete runs: 2026-03-08 (the 2026 DST
transition day of `America/New_York`). -/
def sampleDate : WallDateTime := ⟨⟨2026, 3, 8⟩, 0, 0, 0, 0⟩

/-- The exception message of a call whose 3 attempts all returned HTTP 500. -/
def failMsg500x3 : String :=
  "API request failed with status 500. Failed attempts: [\x7b\x27attempt\x27: 1, \x27status_code\x27: 500, \x27error_type\x27: \x27http_error\x27\x7d, \x7b\x27attempt\x27: 2, \x27status_code\x27: 500, \x27error_type\x27: \x27http_error\x27\x7d, \x7b\x27attempt\x27: 3, \x27status_code\x27: 500, \x27error_type\x27: \x27http_error\x27\x7d]"

/-! ## Claims -/

set_option maxRecDepth 8000

/-- C2, counterexample. At the concrete valid date 2026-03-08 and the valid
IANA timezone name "UTC", the settlement period's offset-aware difference
`end - start` is exactly 24 hours (86400000000 µs), not 24 hours minus
1 microsecond (86399999999 µs) as claimed; the wall-clock difference
(which is what CPython's `end - start` returns for two datetimes wearing
the same `tzinfo`) is also exactly 24 hours. For "America/New_York" on the
same date (its 2026 spring DST transition) the offset-aware difference is
23 hours (82800000000 µs), so no single constant works across timezones. -/
theorem C2_counterexample :
    awareDiffUsec (getSettlementPeriod sampleTzDb sampleDate "UTC").1.2
      (getSettlementPeriod sampleTzDb sampleDate "UTC").1.1 ≠ 86399999999 ∧
    awareDiffUsec (getSettlementPeriod sampleTzDb sampleDate "UTC").1.2
      (getSettlementPeriod sampleTzDb sampleDate "UTC").1.1 = 86400000000 ∧
    naiveDiffUsec (getSettlementPeriod sampleTzDb sampleDate "UTC").1.2
      (getSettlementPeriod sampleTzDb sampleDate "UTC").1.1 = 86400000000 ∧
    awareDiffUsec (getSettlementPeriod sampleTzDb sampleDate "America/New_York").1.2
      (getSettlementPeriod sampleTzDb sampleDate "America/New_York").1.1 = 82800000000 ∧
    sampleDate.date.Valid :=
  ⟨by decide, by decide, by decide, by decide, by decide⟩

/-- C2, amended. For every valid calendar date and every timezone, the
period's `end` is the given date at 23:59:59.999999 and its `start` is the
immediately preceding calendar day at 23:59:59.999999 in the resolved
timezone; the wall-clock difference `end - start` (what CPython returns
for two datetimes sharing one `tzinfo`) is exactly 24 hours, and the
offset-aware instant difference equals 24 hours minus the change in UTC
offset between the two endpoints — in particular exactly 24 hours (not
24 hours minus 1 microsecond) whenever the offset is unchanged. -/
theorem C2_period_window_amended (db : TzDatabase) (sd : WallDateTime) (tzStr : String)
    (h : sd.date.Valid) :
    (getSettlementPeriod db sd tzStr).1.2.wall = ⟨sd.date, 23, 59, 59, 999999⟩ ∧
    (getSettlementPeriod db sd tzStr).1.1.wall = ⟨prevDay sd.date, 23, 59, 59, 999999⟩ ∧
    naiveDiffUsec (getSettlementPeriod db sd tzStr).1.2 (getSettlementPeriod db sd tzStr).1.1 =
      86400000000 ∧
    awareDiffUsec (getSettlementPeriod db sd tzStr).1.2 (getSettlementPeriod db sd tzStr).1.1 =
      86400000000 -
        ((getSettlementPeriod db sd tzStr).1.2.tz (getSettlementPeriod db sd tzStr).1.2.wall -
          (getSettlementPeriod db sd tzStr).1.1.tz (getSettlementPeriod db sd tzStr).1.1.wall) *
          1000000 ∧
    ((getSettlementPeriod db sd tzStr).1.2.tz (getSettlementPeriod db sd tzStr).1.2.wall =
        (getSettlementPeriod db sd tzStr).1.1.tz (getSettlementPeriod db sd tzStr).1.1.wall →
      awareDiffUsec (getSettlementPeriod db sd tzStr).1.2 (getSettlementPeriod db sd tzStr).1.1 =
        86400000000) := by
  obtain ⟨tz', htz⟩ : ∃ tz', (getSettlementPeriod db sd tzStr).1 = settlementPeriodWithTz tz' sd := by
    unfold getSettlementPeriod
    cases db tzStr
    · exact ⟨utcTz, rfl⟩
    · exact ⟨_, rfl⟩
  rw [htz]
  obtain ⟨hw2, hw1⟩ := settlementPeriod_wall tz' sd
  obtain ⟨hn, ha⟩ := settlementPeriod_diff tz' sd h
  refine ⟨hw2, hw1, hn, ha, fun heq => ?_⟩
  have heq' : tz' (settlementPeriodWithTz tz' sd).2.wall =
      tz' (settlementPeriodWithTz tz' sd).1.wall := heq
  rw [ha, heq']
  ring

/-- C2 witness: the amended theorem applied at 2026-03-08 with the sample
database and "America/New_York". -/
theorem C2_period_window_amended_witness :
    naiveDiffUsec (getSettlementPeriod sampleTzDb sampleDate "America/New_York").1.2
      (getSettlementPeriod sampleTzDb sampleDate "America/New_York").1.1 = 86400000000 ∧
    awareDiffUsec (getSettlementPeriod sampleTzDb sampleDate "America/New_York").1.2
      (getSettlementPeriod sampleTzDb sampleDate "America/New_York").1.1 =
      86400000000 -
        ((getSettlementPeriod sampleTzDb sampleDate "America/New_York").1.2.tz
            (getSettlementPeriod sampleTzDb sampleDate "America/New_York").1.2.wall -
          (getSettlementPeriod sampleTzDb sampleDate "America/New_York").1.1.tz
            (getSettlementPeriod sampleTzDb sampleDate "America/New_York").1.1.wall) * 1000000 :=
  ⟨(C2_period_window_amended sampleTzDb sampleDate "America/New_York" (by decide)).2.2.1,
   (C2_period_window_amended sampleTzDb sampleDate "America/New_York" (by decide)).2.2.2.1⟩

/-- C7. When the timezone database does not recognize the requested name,
`_get_settlement_period` does not fail: it returns the period computed with
`ZoneInfo("UTC")` (equal to the period a UTC request yields) and signals
the warning-level diagnostic (the `Bool` modelling the `logger.warning`
call). Totality of `getSettlementPeriod` is the "never aborts" half. -/
theorem C7_invalid_timezone_fallback (db : TzDatabase) (sd : WallDateTime) (name : String)
    (h : db name = none) :
    getSettlementPeriod db sd name = (settlementPeriodWithTz utcTz sd, true) ∧
    (∀ db' : TzDatabase, db' "UTC" = some utcTz →
      (getSettlementPeriod db sd name).1 = (getSettlementPeriod db' sd "UTC").1) ∧
    (getSettlementPeriod db sd name).2 = true := by
  have h1 : getSettlementPeriod db sd name = (settlementPeriodWithTz utcTz sd, true) := by
    unfold getSettlementPeriod
    rw [h]
  refine ⟨h1, fun db' h2 => ?_, by rw [h1]⟩
  unfold getSettlementPeriod
  rw [h, h2]

/-- C7 witness: a database with no entries, queried with "Mars/Phobos". -/
theorem C7_invalid_timezone_fallback_witness :
    getSettlementPeriod (fun _ => none) sampleDate "Mars/Phobos" =
      (settlementPeriodWithTz utcTz sampleDate, true) ∧
    (getSettlementPeriod (fun _ => none) sampleDate "Mars/Phobos").1 =
      (getSettlementPeriod sampleTzDb sampleDate "UTC").1 :=
  ⟨(C7_invalid_timezone_fallback (fun _ => none) sampleDate "Mars/Phobos" rfl).1,
   (C7_invalid_timezone_fallback (fun _ => none) sampleDate "Mars/Phobos" rfl).2.1 sampleTzDb rfl⟩

/-- C6, counterexample. At a concrete input whose three attempts all return
HTTP 500, `_make_request` signals exhaustion as a raised exception whose
payload is only the pre-formatted message string (the failure dicts appear
solely as their `repr` rendering inside that string — the error channel of
the embedding is `String` because that is all the source's `raise
Exception(f"...")` carries), and the caller `_fetch_all_transactions`
recovers failure information from it by substring-matching
`"Failed attempts:"`, storing the raw string as `details` — no structured
`RequestExhausted` value carrying the record list exists anywhere. -/
theorem C6_counterexample :
    makeRequest (alwaysFail500Pages 1) 3 = Except.error failMsg500x3 ∧
    strHasSub "Failed attempts:" failMsg500x3 = true ∧
    fetchAllTransactions alwaysFail500Pages 3 5 =
      ([], [ApiError.pageFailure 1 "Failed to fetch page" failMsg500x3]) ∧
    (∀ r : FailureRecord, ApiError.attemptFailure r ∉
      (fetchAllTransactions alwaysFail500Pages 3 5).2) := by
  refine ⟨by decide, by decide, by decide, fun r => ?_⟩
  rw [show fetchAllTransactions alwaysFail500Pages 3 5 =
    ([], [ApiError.pageFailure 1 "Failed to fetch page" failMsg500x3]) from by decide]
  simp

/-- C6, amended. When all retry attempts of one logical call fail,
`_make_request` raises an untyped `Exception` whose message is a
pre-formatted human-readable string: some prefix followed by
`"Failed attempts: "` and the `repr` of the ordered failure-record list.
Callers can only detect exhaustion by substring-matching
`"Failed attempts:"` in that message (which is what
`_fetch_all_transactions` and `calculate_settlement` do); the record list
is not carried as recoverable structured data. -/
theorem C6_exhaustion_string_amended (β : Type) (env : Nat → HttpAttempt β) (retries : Nat)
    (msg : String) (h : makeRequest env retries = .error msg) :
    (∃ p records, msg = p ++ ("Failed attempts: " ++ failListRepr records)) ∧
    strHasSub "Failed attempts:" msg = true :=
  ⟨makeRequestGo_error_shape env retries retries 0 [] msg h,
   makeRequest_error_hasSub env retries msg h⟩

/-- C6 witness: the amended theorem applied to the all-500 transactions
upstream. -/
theorem C6_exhaustion_string_amended_witness :
    (∃ p records, failMsg500x3 = p ++ ("Failed attempts: " ++ failListRepr records)) ∧
    strHasSub "Failed attempts:" failMsg500x3 = true :=
  C6_exhaustion_string_amended TxnPage (alwaysFail500Pages 1) 3 failMsg500x3 (by decide)

/-- C8. With the default budget of `defaultRetries = 3` attempts per
logical call: a run whose first `k` attempts fail (each failure being a
non-200 status, a timeout, or a transport exception — the only failing
branches of the loop) and whose attempt `k` succeeds returns the body,
carrying all `k` failure records in order; the sleeps executed are exactly
`2 ^ i + jitter i` for each failed non-final attempt `i` (so none after a
success), each lying in `[2 ^ i, 2 ^ i + 1)` when the jitter draws lie in
`[0, 1)`; and a run whose 3 attempts all fail raises after the third
attempt with the message built from all 3 records — its final record was
appended before the raise decision — having slept only after attempts 0
and 1, never after the exhausting attempt. -/
theorem C8_retry_policy (β : Type) (env : Nat → HttpAttempt β) (jitter : Nat → ℚ) (body : β)
    (k : Nat) (h01 : ∀ i, 0 ≤ jitter i ∧ jitter i < 1) (hk : k < 3)
    (hfail : ∀ i, i < k → (env i).isFailure = true) (hsucc : env k = .response 200 body) :
    defaultRetries = 3 ∧
    makeRequest env 3 = .ok ⟨body,
      if k = 0 then none
      else some ⟨(List.range k).map (fun i => attemptRecord i (env i)), k + 1⟩⟩ ∧
    backoffSleeps env jitter 3 = (List.range k).map (fun i => 2 ^ i + jitter i) ∧
    (∀ s ∈ backoffSleeps env jitter 3, ∃ i, s = 2 ^ i + jitter i ∧
      2 ^ i ≤ s ∧ s < 2 ^ i + 1) ∧
    (∀ env' : Nat → HttpAttempt β, (∀ i, i < 3 → (env' i).isFailure = true) →
      makeRequest env' 3 = .error (exhaustMessage (env' 2)
        ((List.range 3).map (fun i => attemptRecord i (env' i)))) ∧
      backoffSleeps env' jitter 3 = [2 ^ 0 + jitter 0, 2 ^ 1 + jitter 1]) := by
  have hzero : ∀ i : Nat, 0 + i = i := fun i => Nat.zero_add i
  have hmk : makeRequest env 3 = .ok ⟨body,
      if k = 0 then none
      else some ⟨(List.range k).map (fun i => attemptRecord i (env i)), k + 1⟩⟩ := by
    unfold makeRequest
    have h := makeRequestGo_success_run env 3 body k 0 []
      (by omega) (fun i hi => by rw [hzero]; exact hfail i hi) (by rw [hzero]; exact hsucc)
    rw [show (3 : Nat) - 0 = 3 from rfl] at h
    rw [h]
    simp only [hzero, List.nil_append]
    cases k with
    | zero => simp
    | succ j =>
      simp only [List.isEmpty_eq_true, if_neg]
      rw [if_neg (by simp [List.range_succ]), if_neg (by omega)]
  have hsl : backoffSleeps env jitter 3 = (List.range k).map (fun i => 2 ^ i + jitter i) := by
    unfold backoffSleeps
    have h := backoffSleepsGo_success_run env jitter 3 body k 0
      (by omega) (fun i hi => by rw [hzero]; exact hfail i hi) (by rw [hzero]; exact hsucc)
    rw [show (3 : Nat) - 0 = 3 from rfl] at h
    rw [h]
    simp only [hzero]
  refine ⟨rfl, hmk, hsl, ?_, ?_⟩
  · intro s hs
    rw [hsl] at hs
    obtain ⟨i, _, hi⟩ := List.mem_map.mp hs
    refine ⟨i, hi.symm, ?_, ?_⟩
    · rw [← hi]
      have := (h01 i).1
      linarith
    · rw [← hi]
      have := (h01 i).2
      linarith
  · intro env' hfail'
    constructor
    · unfold makeRequest
      have h := makeRequestGo_exhaust_run env' 3 2 0 [] (by omega)
        (fun i hi => by rw [hzero]; exact hfail' i (by omega))
      rw [show (3 : Nat) - 0 = 3 from rfl] at h
      rw [h]
      simp only [hzero, List.nil_append]
    · unfold backoffSleeps
      have h := backoffSleepsGo_exhaust_run env' jitter 3 2 0 (by omega)
        (fun i hi => by rw [hzero]; exact hfail' i (by omega))
      rw [show (3 : Nat) - 0 = 3 from rfl] at h
      rw [h]
      simp only [hzero]
      rw [show (List.range 2) = [0, 1] from by decide]
      rfl

/-- C8 witness: the merchant lookup that fails twice and succeeds on its
third attempt, with constant jitter 1/2. -/
theorem C8_retry_policy_witness :
    makeRequest merchantFlakyEnv 3 = .ok ⟨⟨some "Acme"⟩,
      some ⟨[⟨1, some 500, .httpError, none⟩, ⟨2, none, .timeout, none⟩], 3⟩⟩ ∧
    backoffSleeps merchantFlakyEnv (fun _ => (1 : ℚ) / 2) 3 = [3 / 2, 5 / 2] ∧
    makeRequest merchantFailEnv 3 = Except.error failMsg500x3 ∧
    backoffSleeps merchantFailEnv (fun _ => (1 : ℚ) / 2) 3 = [3 / 2, 5 / 2] := by
  have h := C8_retry_policy Merchant merchantFlakyEnv (fun _ => (1 : ℚ) / 2) ⟨some "Acme"⟩ 2
    (fun i => by norm_num) (by omega) (fun i hi => by interval_cases i <;> decide) (by decide)
  have h2 := h.2.2.2.2 merchantFailEnv (fun i _ => rfl)
  refine ⟨?_, ?_, ?_, ?_⟩
  · rw [h.2.1]
    decide
  · rw [h.2.2.1]
    norm_num [List.range_succ]
  · rw [h2.1]
    decide
  · rw [h2.2]
    norm_num

/-- C5. A retried call that succeeds at (zero-indexed) attempt `k` after
`k ≥ 1` failures returns the parsed body with `_request_metadata` attached,
carrying the ordered list of all `k` prior failure records; and in the
concrete run whose merchant lookup fails twice (HTTP 500, then timeout)
before succeeding on the 3rd attempt, `calculate_settlement` still returns
a complete report whose `api_errors` diagnostics hold exactly those 2
failure records. -/
theorem C5_metadata_on_success (β : Type) (env : Nat → HttpAttempt β) (body : β)
    (retries k : Nat) (hk1 : 1 ≤ k) (hk : k < retries)
    (hfail : ∀ i, i < k → (env i).isFailure = true) (hsucc : env k = .response 200 body) :
    makeRequest env retries = .ok ⟨body,
      some ⟨(List.range k).map (fun i => attemptRecord i (env i)), k + 1⟩⟩ ∧
    (calculateSettlement merchantFlakyEnv (onePageEnv []) sampleTzDb
        "m1" sampleDate "UTC" 3 1).map (fun r => r.apiErrors) =
      .ok (some ⟨2, [.attemptFailure ⟨1, some 500, .httpError, none⟩,
        .attemptFailure ⟨2, none, .timeout, none⟩]⟩) ∧
    (calculateSettlement merchantFlakyEnv (onePageEnv []) sampleTzDb
        "m1" sampleDate "UTC" 3 1).map (fun r => (r.merchantName, r.transactionCount)) =
      .ok (some "Acme", 0) := by
  have hzero : ∀ i : Nat, 0 + i = i := fun i => Nat.zero_add i
  refine ⟨?_, by decide, by decide⟩
  unfold makeRequest
  have h := makeRequestGo_success_run env retries body k 0 []
    (by omega) (fun i hi => by rw [hzero]; exact hfail i hi) (by rw [hzero]; exact hsucc)
  rw [Nat.sub_zero] at h
  rw [h]
  simp only [hzero, List.nil_append]
  obtain ⟨j, hj⟩ : ∃ j, k = j + 1 := ⟨k - 1, by omega⟩
  subst hj
  rw [if_neg (by simp [List.range_succ])]

/-- C5 witness: the flaky merchant lookup, succeeding on its 3rd attempt
with 2 recorded failures. -/
theorem C5_metadata_on_success_witness :
    makeRequest merchantFlakyEnv 3 = .ok ⟨⟨some "Acme"⟩,
      some ⟨[⟨1, some 500, .httpError, none⟩, ⟨2, none, .timeout, none⟩], 3⟩⟩ := by
  have h := C5_metadata_on_success Merchant merchantFlakyEnv ⟨some "Acme"⟩ 3 2
    (by omega) (by omega) (fun i hi => by interval_cases i <;> decide) (by decide)
  rw [h.1]
  decide

/-- C4. When pages `1 .. N-1` succeed (each with a truthy `next` pointer)
and the fetch of page `N` exhausts its retries, `_fetch_all_transactions`
returns exactly the transactions accumulated from the first `N-1` pages,
with the attempt-level diagnostics of those pages followed by one final
record `\x7bpage: N, error: "Failed to fetch page", details: <message>\x7d`
— pagination stops at page `N`. In the concrete run where page 2 of 3
fails exhaustively, the report holds only page 1's two transactions,
`transaction_count` is 2, and `api_errors.total_errors` is 1. -/
theorem C4_page_failure_truncates (pageEnv : Nat → Nat → HttpAttempt TxnPage) (retries : Nat)
    (pageOk : Nat → RequestOk TxnPage) (msg : String) (count fuel : Nat)
    (hfuel : count < fuel)
    (hok : ∀ i, i < count → makeRequest (pageEnv (1 + i)) retries = .ok (pageOk (1 + i)) ∧
      pyTruthy (pageOk (1 + i)).body.next = true)
    (herr : makeRequest (pageEnv (1 + count)) retries = .error msg) :
    fetchAllTransactions pageEnv retries fuel =
      ((List.range count).flatMap (fun i => (pageOk (1 + i)).body.results),
       (List.range count).flatMap (fun i => metaErrors (pageOk (1 + i)).requestMetadata)
         ++ [ApiError.pageFailure (1 + count) "Failed to fetch page" msg]) ∧
    (calculateSettlement merchantOkEnv pagesFailAt2Env sampleTzDb
        "m1" sampleDate "UTC" 3 5).map (fun r => (r.transactionCount, r.transactions)) =
      .ok (2, [⟨some "SALE", some "5.00"⟩, ⟨some "REFUND", some "1.00"⟩]) ∧
    (calculateSettlement merchantOkEnv pagesFailAt2Env sampleTzDb
        "m1" sampleDate "UTC" 3 5).map (fun r => r.apiErrors.map (fun b => b.totalErrors)) =
      .ok (some 1) := by
  refine ⟨?_, by decide, by decide⟩
  unfold fetchAllTransactions
  have h := fetchAllGo_run pageEnv retries pageOk msg count 1 [] [] fuel hfuel hok herr
  rw [h]
  simp only [List.nil_append]

/-- C4 witness: page 1 of `pagesFailAt2Env` succeeds with a `next` pointer,
page 2 exhausts with three HTTP 500 attempts; only page 1's transactions
survive. -/
theorem C4_page_failure_truncates_witness :
    fetchAllTransactions pagesFailAt2Env 3 5 =
      ([⟨some "SALE", some "5.00"⟩, ⟨some "REFUND", some "1.00"⟩],
       [ApiError.pageFailure 2 "Failed to fetch page" failMsg500x3]) := by
  have h := C4_page_failure_truncates pagesFailAt2Env 3
    (fun _ => ⟨⟨[⟨some "SALE", some "5.00"⟩, ⟨some "REFUND", some "1.00"⟩], some "page2"⟩, none⟩)
    failMsg500x3 1 5 (by omega)
    (fun i hi => by
      interval_cases i
      exact ⟨by decide, by decide⟩)
    (by decide)
  rw [h.1]
  decide

/-- C3, counterexample. The merchant lookup succeeds first try, yet
`calculate_settlement` still fails: the single fetched transaction's
amount string "abc" makes `Decimal(str(...))` raise `InvalidOperation`,
which propagates out of `calculate_settlement` (the outer handler
re-raises) — so failure is possible without the merchant lookup
exhausting, and the failure is not `MerchantNotFound`. -/
theorem C3_counterexample :
    (calculateSettlement merchantOkEnv (onePageEnv [⟨some "SALE", some "abc"⟩]) sampleTzDb
        "m1" sampleDate "UTC" 3 1).map (fun _ => ()) =
      .error (.invalidDecimal "abc") ∧
    makeRequest merchantOkEnv 3 = .ok ⟨⟨some "Acme Cafe"⟩, none⟩ ∧
    CalcError.invalidDecimal "abc" ≠ CalcError.merchantNotFound "m1" :=
  ⟨by decide, by decide, by decide⟩

/-- C3, amended. `calculate_settlement` fails exactly when the merchant
lookup exhausts its retries or a fetched transaction amount is not a
well-formed decimal string (the latter raising the decimal error); when
the merchant lookup fails, the result is `MerchantNotFound` regardless of
the transactions upstream — no transaction fetch can influence it, the
pure-embedding rendering of "no transaction fetch is attempted". Every
other upstream failure mode (retried attempts, aborted pages) yields a
report with partial data plus diagnostics rather than an error. -/
theorem C3_merchant_failure_amended (menv : Nat → HttpAttempt Merchant)
    (pageEnv : Nat → Nat → HttpAttempt TxnPage) (db : TzDatabase) (id : String)
    (sd : WallDateTime) (tzStr : String) (retries fuel : Nat) :
    ((∃ e, calculateSettlement menv pageEnv db id sd tzStr retries fuel = .error e) ↔
      ((∃ msg, makeRequest menv retries = .error msg) ∨
       (∃ a, sumAmounts isPurchaseType (fetchAllTransactions pageEnv retries fuel).1 = .error a) ∨
       (∃ a, sumAmounts isRefundType (fetchAllTransactions pageEnv retries fuel).1 = .error a))) ∧
    (∀ msg, makeRequest menv retries = .error msg →
      ∀ pageEnv' : Nat → Nat → HttpAttempt TxnPage,
        calculateSettlement menv pageEnv' db id sd tzStr retries fuel =
          .error (.merchantNotFound id)) := by
  constructor
  · cases hm : makeRequest menv retries with
    | error msg =>
      constructor
      · intro _
        exact Or.inl ⟨msg, rfl⟩
      · intro _
        exact ⟨.merchantNotFound id, by simp only [calculateSettlement, hm]⟩
    | ok mOk =>
      cases hp : sumAmounts isPurchaseType (fetchAllTransactions pageEnv retries fuel).1 with
      | error a =>
        constructor
        · intro _
          exact Or.inr (Or.inl ⟨a, rfl⟩)
        · intro _
          exact ⟨.invalidDecimal a, by simp only [calculateSettlement, hm, hp]⟩
      | ok P =>
        cases hr : sumAmounts isRefundType (fetchAllTransactions pageEnv retries fuel).1 with
        | error a =>
          constructor
          · intro _
            exact Or.inr (Or.inr ⟨a, rfl⟩)
          · intro _
            exact ⟨.invalidDecimal a, by simp only [calculateSettlement, hm, hp, hr]⟩
        | ok R =>
          constructor
          · intro ⟨e, he⟩
            rw [calculateSettlement_ok_eq menv pageEnv db id sd tzStr retries fuel mOk P R
              hm hp hr] at he
            simp at he
          · intro hdis
            rcases hdis with ⟨msg, h⟩ | ⟨a, h⟩ | ⟨a, h⟩ <;> simp at h
  · intro msg hmsg pageEnv'
    simp only [calculateSettlement, hmsg]

/-- C3 witness: the all-500 merchant lookup makes `calculate_settlement`
fail with `MerchantNotFound`, whatever the transactions upstream. -/
theorem C3_merchant_failure_amended_witness :
    calculateSettlement merchantFailEnv (onePageEnv []) sampleTzDb
      "m1" sampleDate "UTC" 3 1 = .error (.merchantNotFound "m1") :=
  (C3_merchant_failure_amended merchantFailEnv (onePageEnv []) sampleTzDb
    "m1" sampleDate "UTC" 3 1).2 failMsg500x3 (by decide) (onePageEnv [])

/-- The report produced when the merchant lookup succeeds immediately and
the transactions upstream serves the single page `txns` (no next pointer):
the reduce step of `calculate_settlement` over `txns`. -/
theorem calcSettlement_onePage (m : Merchant) (txns : List Transaction) (db : TzDatabase)
    (id : String) (sd : WallDateTime) (tzStr : String) (fuel : Nat) (P R : Dec)
    (hP : sumAmounts isPurchaseType txns = .ok P)
    (hR : sumAmounts isRefundType txns = .ok R) :
    calculateSettlement (fun _ => .response 200 m) (fun _ _ => .response 200 ⟨txns, none⟩)
        db id sd tzStr 3 (fuel + 1) = .ok
      { merchantId := id
        merchantName := m.name
        settlementDate := sd.date
        periodStart := (getSettlementPeriod db sd tzStr).1.1
        periodEnd := (getSettlementPeriod db sd tzStr).1.2
        settlementAmount := decToString (decSub P R)
        totalPurchases := decToString P
        totalRefunds := decToString R
        transactionCount := txns.length
        netSettlement := decToString (decSub P R)
        transactions := txns
        apiErrors := none } := by
  have hm : makeRequest (fun _ => HttpAttempt.response 200 m) 3 = .ok ⟨m, none⟩ := rfl
  have hf := fetchAll_onePage txns fuel
  have h := calculateSettlement_ok_eq (fun _ => .response 200 m)
    (fun _ _ => .response 200 ⟨txns, none⟩) db id sd tzStr 3 (fuel + 1) ⟨m, none⟩ P R hm
    (by rw [hf]; exact hP) (by rw [hf]; exact hR)
  rw [h]
  simp [hf, metaErrors]

/-- C1. The reduce step of `calculate_settlement` partitions transactions
by type: with `P` the exact decimal sum of the amounts of `SALE`/`PURCHASE`
transactions and `R` that of `REFUND` transactions, the report carries
`total_purchases = str(P)`, `total_refunds = str(R)`, and
`settlement_amount` and `net_settlement` both equal to `str(P - R)`;
appending a transaction of any other type changes neither sum while still
incrementing `transaction_count` and appearing in the report's
`transactions` list; and the arithmetic is exact decimal — `"10.10"` and
`"0.05"` parse to 1010·10⁻² and 5·10⁻², whose difference renders as
exactly `"10.05"`, as the concrete end-to-end run confirms. -/
theorem C1_reduce_partition (m : Merchant) (txns : List Transaction) (db : TzDatabase)
    (id : String) (sd : WallDateTime) (tzStr : String) (fuel : Nat) (P R : Dec)
    (hP : sumAmounts isPurchaseType txns = .ok P)
    (hR : sumAmounts isRefundType txns = .ok R) :
    calculateSettlement (fun _ => .response 200 m) (fun _ _ => .response 200 ⟨txns, none⟩)
        db id sd tzStr 3 (fuel + 1) = .ok
      { merchantId := id
        merchantName := m.name
        settlementDate := sd.date
        periodStart := (getSettlementPeriod db sd tzStr).1.1
        periodEnd := (getSettlementPeriod db sd tzStr).1.2
        settlementAmount := decToString (decSub P R)
        totalPurchases := decToString P
        totalRefunds := decToString R
        transactionCount := txns.length
        netSettlement := decToString (decSub P R)
        transactions := txns
        apiErrors := none } ∧
    (∀ t : Transaction, isPurchaseType t.txnType = false → isRefundType t.txnType = false →
      sumAmounts isPurchaseType (txns ++ [t]) = .ok P ∧
      sumAmounts isRefundType (txns ++ [t]) = .ok R ∧
      calculateSettlement (fun _ => .response 200 m)
          (fun _ _ => .response 200 ⟨txns ++ [t], none⟩) db id sd tzStr 3 (fuel + 1) = .ok
        { merchantId := id
          merchantName := m.name
          settlementDate := sd.date
          periodStart := (getSettlementPeriod db sd tzStr).1.1
          periodEnd := (getSettlementPeriod db sd tzStr).1.2
          settlementAmount := decToString (decSub P R)
          totalPurchases := decToString P
          totalRefunds := decToString R
          transactionCount := txns.length + 1
          netSettlement := decToString (decSub P R)
          transactions := txns ++ [t]
          apiErrors := none }) ∧
    (parseDec "10.10" = some ⟨1010, 2⟩ ∧ parseDec "0.05" = some ⟨5, 2⟩ ∧
      decToString (decSub ⟨1010, 2⟩ ⟨5, 2⟩) = "10.05") ∧
    (calculateSettlement (fun _ => .response 200 m)
        (fun _ _ => .response 200
          ⟨[⟨some "SALE", some "10.10"⟩, ⟨some "REFUND", some "0.05"⟩], none⟩)
        db id sd tzStr 3 (fuel + 1)).map (fun r => (r.settlementAmount, r.netSettlement)) =
      .ok ("10.05", "10.05") := by
  refine ⟨calcSettlement_onePage m txns db id sd tzStr fuel P R hP hR, ?_, ⟨by decide, by decide, by decide⟩, ?_⟩
  · intro t ht1 ht2
    have hP' : sumAmounts isPurchaseType (txns ++ [t]) = .ok P := by
      rw [sumAmounts_append_excluded isPurchaseType txns t ht1]
      exact hP
    have hR' : sumAmounts isRefundType (txns ++ [t]) = .ok R := by
      rw [sumAmounts_append_excluded isRefundType txns t ht2]
      exact hR
    refine ⟨hP', hR', ?_⟩
    have h := calcSettlement_onePage m (txns ++ [t]) db id sd tzStr fuel P R hP' hR'
    rw [h]
    simp
  · have h := calcSettlement_onePage m
      [⟨some "SALE", some "10.10"⟩, ⟨some "REFUND", some "0.05"⟩] db id sd tzStr fuel
      ⟨1010, 2⟩ ⟨5, 2⟩ (by decide) (by decide)
    rw [h]
    simp only [Except.map]
    decide

/-- C1 witness: the two-transaction run, with the sums evaluated
concretely. -/
theorem C1_reduce_partition_witness :
    (calculateSettlement (fun _ => .response 200 ⟨some "Acme Cafe"⟩)
        (fun _ _ => .response 200
          ⟨[⟨some "SALE", some "10.10"⟩, ⟨some "REFUND", some "0.05"⟩], none⟩)
        sampleTzDb "m1" sampleDate "UTC" 3 1).map
      (fun r => (r.settlementAmount, r.netSettlement)) = .ok ("10.05", "10.05") ∧
    sumAmounts isPurchaseType ([⟨some "SALE", some "10.10"⟩, ⟨some "REFUND", some "0.05"⟩] ++
      [⟨some "VOID", some "9.99"⟩]) = .ok ⟨1010, 2⟩ :=
  ⟨(C1_reduce_partition ⟨some "Acme Cafe"⟩
      [⟨some "SALE", some "10.10"⟩, ⟨some "REFUND", some "0.05"⟩]
      sampleTzDb "m1" sampleDate "UTC" 0 ⟨1010, 2⟩ ⟨5, 2⟩ (by decide) (by decide)).2.2.2,
   ((C1_reduce_partition ⟨some "Acme Cafe"⟩
      [⟨some "SALE", some "10.10"⟩, ⟨some "REFUND", some "0.05"⟩]
      sampleTzDb "m1" sampleDate "UTC" 0 ⟨1010, 2⟩ ⟨5, 2⟩ (by decide) (by decide)).2.1
      ⟨some "VOID", some "9.99"⟩ (by decide) (by decide)).1⟩

/-- C9. Whenever `calculate_settlement` returns a report, the `api_errors`
block is present if and only if the accumulated diagnostic list (the
merchant lookup's attempt failures followed by the transaction fetch's
diagnostics) is non-empty, and when present it carries that list and its
length as `total_errors`; in the concrete run with zero transactions and
no upstream failures, `settlement_amount` is `"0"`, `transaction_count`
is `0`, and `api_errors` is absent. -/
theorem C9_api_errors_iff (menv : Nat → HttpAttempt Merchant)
    (pageEnv : Nat → Nat → HttpAttempt TxnPage) (db : TzDatabase) (id : String)
    (sd : WallDateTime) (tzStr : String) (retries fuel : Nat) (mOk : RequestOk Merchant)
    (P R : Dec) (hm : makeRequest menv retries = .ok mOk)
    (hP : sumAmounts isPurchaseType (fetchAllTransactions pageEnv retries fuel).1 = .ok P)
    (hR : sumAmounts isRefundType (fetchAllTransactions pageEnv retries fuel).1 = .ok R) :
    (∃ rep, calculateSettlement menv pageEnv db id sd tzStr retries fuel = .ok rep ∧
      (rep.apiErrors = none ↔
        metaErrors mOk.requestMetadata ++ (fetchAllTransactions pageEnv retries fuel).2 = []) ∧
      (metaErrors mOk.requestMetadata ++ (fetchAllTransactions pageEnv retries fuel).2 ≠ [] →
        rep.apiErrors = some
          ⟨(metaErrors mOk.requestMetadata ++ (fetchAllTransactions pageEnv retries fuel).2).length,
           metaErrors mOk.requestMetadata ++ (fetchAllTransactions pageEnv retries fuel).2⟩)) ∧
    (calculateSettlement merchantOkEnv (onePageEnv []) sampleTzDb
        "m1" sampleDate "UTC" 3 1).map (fun r => (r.settlementAmount, r.transactionCount,
          r.apiErrors)) = .ok ("0", 0, none) := by
  refine ⟨⟨_, calculateSettlement_ok_eq menv pageEnv db id sd tzStr retries fuel mOk P R
    hm hP hR, ?_, ?_⟩, by decide⟩
  · constructor
    · intro h
      by_contra hd
      rw [if_neg (by simpa [List.isEmpty_eq_true] using hd)] at h
      simp at h
    · intro hd
      rw [if_pos (by simpa [List.isEmpty_eq_true] using hd)]
  · intro hd
    rw [if_neg (by simpa [List.isEmpty_eq_true] using hd)]

/-- C9 witness: a merchant lookup succeeding on its 3rd attempt plus an
empty single transactions page — diagnostics are non-empty, so `api_errors`
carries exactly them (here 2 records). -/
theorem C9_api_errors_iff_witness :
    (calculateSettlement merchantFlakyEnv (onePageEnv []) sampleTzDb
        "m1" sampleDate "UTC" 3 1).map (fun r => r.apiErrors) =
      .ok (some ⟨2, [.attemptFailure ⟨1, some 500, .httpError, none⟩,
        .attemptFailure ⟨2, none, .timeout, none⟩]⟩) := by
  obtain ⟨rep, hrep, _, hsome⟩ := (C9_api_errors_iff merchantFlakyEnv (onePageEnv [])
    sampleTzDb "m1" sampleDate "UTC" 3 1
    ⟨⟨some "Acme"⟩, some ⟨[⟨1, some 500, .httpError, none⟩, ⟨2, none, .timeout, none⟩], 3⟩⟩
    decZero decZero (by decide) (by decide) (by decide)).1
  rw [hrep]
  simp only [Except.map]
  rw [hsome (by decide)]
  decide

/-- C10. The reduce step is total over missing fields: a transaction whose
`amount` key is absent is read as `"0"`, which parses to the decimal zero,
so a typed (`SALE`/`PURCHASE`/`REFUND`) transaction without an amount
contributes exactly zero to its total (leaving the sum equal to `P`
resp. `R`) instead of raising; and a transaction with no `type` key at all
is excluded from both sums while still being counted in
`transaction_count` and kept in the report's `transactions` list. -/
theorem C10_missing_fields_total (m : Merchant) (txns : List Transaction) (db : TzDatabase)
    (id : String) (sd : WallDateTime) (tzStr : String) (fuel : Nat) (P R : Dec) (ty : String)
    (hP : sumAmounts isPurchaseType txns = .ok P)
    (hR : sumAmounts isRefundType txns = .ok R) :
    parseDec (txnAmount ⟨some ty, none⟩) = some decZero ∧
    (isPurchaseType (some ty) = true →
      sumAmounts isPurchaseType (txns ++ [⟨some ty, none⟩]) = .ok (decAdd P decZero) ∧
      decAdd P decZero = P) ∧
    (isRefundType (some ty) = true →
      sumAmounts isRefundType (txns ++ [⟨some ty, none⟩]) = .ok (decAdd R decZero) ∧
      decAdd R decZero = R) ∧
    (∀ a : Option String,
      sumAmounts isPurchaseType (txns ++ [⟨none, a⟩]) = .ok P ∧
      sumAmounts isRefundType (txns ++ [⟨none, a⟩]) = .ok R ∧
      calculateSettlement (fun _ => .response 200 m)
          (fun _ _ => .response 200 ⟨txns ++ [⟨none, a⟩], none⟩) db id sd tzStr 3 (fuel + 1) =
        .ok
          { merchantId := id
            merchantName := m.name
            settlementDate := sd.date
            periodStart := (getSettlementPeriod db sd tzStr).1.1
            periodEnd := (getSettlementPeriod db sd tzStr).1.2
            settlementAmount := decToString (decSub P R)
            totalPurchases := decToString P
            totalRefunds := decToString R
            transactionCount := txns.length + 1
            netSettlement := decToString (decSub P R)
            transactions := txns ++ [⟨none, a⟩]
            apiErrors := none }) := by
  refine ⟨rfl, ?_, ?_, ?_⟩
  · intro hty
    exact ⟨sumAmounts_append_included isPurchaseType txns ⟨some ty, none⟩ P decZero hty hP
      rfl, decAdd_decZero P⟩
  · intro hty
    exact ⟨sumAmounts_append_included isRefundType txns ⟨some ty, none⟩ R decZero hty hR
      rfl, decAdd_decZero R⟩
  · intro a
    have ht1 : isPurchaseType (Transaction.mk none a).txnType = false := rfl
    have ht2 : isRefundType (Transaction.mk none a).txnType = false := rfl
    have hP' : sumAmounts isPurchaseType (txns ++ [⟨none, a⟩]) = .ok P := by
      rw [sumAmounts_append_excluded isPurchaseType txns ⟨none, a⟩ ht1]
      exact hP
    have hR' : sumAmounts isRefundType (txns ++ [⟨none, a⟩]) = .ok R := by
      rw [sumAmounts_append_excluded isRefundType txns ⟨none, a⟩ ht2]
      exact hR
    refine ⟨hP', hR', ?_⟩
    have h := calcSettlement_onePage m (txns ++ [⟨none, a⟩]) db id sd tzStr fuel P R hP' hR'
    rw [h]
    simp

/-- C10 witness: appending an amountless `SALE` and a typeless transaction
to the two-transaction example leaves both totals unchanged. -/
theorem C10_missing_fields_total_witness :
    sumAmounts isPurchaseType ([⟨some "SALE", some "10.10"⟩, ⟨some "REFUND", some "0.05"⟩] ++
      [⟨some "SALE", none⟩]) = .ok (decAdd ⟨1010, 2⟩ decZero) ∧
    decAdd ⟨1010, 2⟩ decZero = ⟨1010, 2⟩ ∧
    sumAmounts isPurchaseType ([⟨some "SALE", some "10.10"⟩, ⟨some "REFUND", some "0.05"⟩] ++
      [⟨none, some "7.77"⟩]) = .ok ⟨1010, 2⟩ := by
  have h := C10_missing_fields_total ⟨some "Acme Cafe"⟩
    [⟨some "SALE", some "10.10"⟩, ⟨some "REFUND", some "0.05"⟩]
    sampleTzDb "m1" sampleDate "UTC" 0 ⟨1010, 2⟩ ⟨5, 2⟩ "SALE" (by decide) (by decide)
  exact ⟨(h.2.1 (by decide)).1, (h.2.1 (by decide)).2, (h.2.2.2 (some "7.77")).1⟩
